import Mathlib

/-!
Verification of the request-dispatch core of the `aws-smithy-http-server`
runtime: the REST and AwsJson routing engines
(`rust-runtime/aws-smithy-http-server/src/routing/mod.rs` and the modules it
drives) and the rejection taxonomy
(`rust-runtime/aws-smithy-http-server/src/rejection.rs`).

The route-matching engine (`routing/request_spec.rs`, `routers/rest.rs`,
`routers/aws_json.rs`) is not part of the provided sources, only its
declarations, constructors and tests are; those parts are modelled from the
specification and checked against the in-source tests
(`rest_tests::simple_routing`, `rest_tests::basic_pattern_conflict_avoidance`,
`awsjson_tests::simple_routing`).
-/

/-! ## HTTP methods and requests -/

/-- HTTP methods used by the routing tests (`http::Method`). -/
inductive Method where
  | GET
  | POST
  | DELETE
  | PATCH
  | PUT
deriving DecidableEq, Repr

/-- Split a character list at every occurrence of `sep`, keeping empty pieces,
like Rust's `str::split`. -/
def splitChars (sep : Char) : List Char → List (List Char)
  | [] => [[]]
  | c :: cs =>
    let r := splitChars sep cs
    if c = sep then [] :: r
    else
      match r with
      | [] => [[c]]
      | h :: t => (c :: h) :: t

/-- Split a string at every occurrence of the character `sep`. -/
def splitStr (sep : Char) (s : String) : List String :=
  (splitChars sep s.toList).map (fun l => ⟨l⟩)

/-- Split a URI into its path (before the first `?`) and its raw query string
(after the first `?`), as exposed by `http::Uri::path` and `http::Uri::query`. -/
def uriParts (uri : String) : String × Option String :=
  match splitChars '?' uri.toList with
  | [] => ("", none)
  | p :: [] => (⟨p⟩, none)
  | p :: rest => (⟨p⟩, some ⟨List.intercalate ['?'] rest⟩)

/-- One `key=value` piece of a query string; a piece with no `=` yields an
empty value, as `serde_urlencoded` / `form_urlencoded` do. -/
def queryPiece (s : String) : String × String :=
  match splitChars '=' s.toList with
  | [] => ("", "")
  | k :: rest => (⟨k⟩, ⟨List.intercalate ['='] rest⟩)

/-- Parse a raw query string into key/value pairs: split on `&`, drop empty
pieces (`form_urlencoded` skips them), split each piece at its first `=`. -/
def parseQuery (qs : String) : List (String × String) :=
  ((splitStr '&' qs).filter (fun p => p ≠ "")).map queryPiece

deriving instance DecidableEq for Except

/-- An incoming request as seen by the router: HTTP method, raw URI and the
`x-amz-target` header (the only header routing reads). Built by
`rest_tests::req`. -/
structure Request where
  method : Method
  uri : String
  xAmzTarget : Option String := none
deriving DecidableEq, Repr

/-- The URI's path component. -/
def Request.path (r : Request) : String := (uriParts r.uri).1

/-- The decoded path segments: the path split on `/` with empty segments
dropped, so `/` has no segments and `/a/b` has segments `a`, `b`. -/
def Request.pathSegs (r : Request) : List String :=
  (splitStr '/' r.path).filter (fun s => s ≠ "")

/-- The request's parsed query parameters (empty when the URI has no query). -/
def Request.queryPairs (r : Request) : List (String × String) :=
  match (uriParts r.uri).2 with
  | none => []
  | some qs => parseQuery qs

/-! ## Route specifications

`PathSegment`, `QuerySegment` and `RequestSpec` are declared in
`routing/request_spec.rs` and used by the constructors and tests in
`routing/mod.rs`. -/

/-- One element of a route's path pattern (`request_spec::PathSegment`):
a literal, a single-segment label, or a greedy label consuming one or more
segments. -/
inductive PathSegment where
  | literal (s : String)
  | label
  | greedy
deriving DecidableEq, Repr

/-- One query constraint of a route (`request_spec::QuerySegment`): the key
must be present (`Key`), or the key must be present with exactly the given
value (`KeyValue`). -/
inductive QuerySegment where
  | key (k : String)
  | keyValue (k v : String)
deriving DecidableEq, Repr

/-- A compiled REST route specification (`request_spec::RequestSpec`, built by
`RequestSpec::from_parts(method, path_segments, query_segments)`). -/
structure RequestSpec where
  method : Method
  pathSegments : List PathSegment
  querySegments : List QuerySegment
deriving DecidableEq, Repr

/-- `RequestSpec::from_parts`, the constructor used by the routing tests. -/
def RequestSpec.from_parts (m : Method) (ps : List PathSegment) (qs : List QuerySegment) :
    RequestSpec :=
  ⟨m, ps, qs⟩

/-- The outcome of matching one spec against one request
(`request_spec::Match`): full match, path+query match with the wrong HTTP
method, or no match. -/
inductive Match where
  | yes
  | methodNotAllowed
  | no
deriving DecidableEq, Repr

/-- Index of the last occurrence of `l` in `ss`, if any. -/
def lastIndexOf (l : String) : List String → Option Nat
  | [] => none
  | s :: ss =>
    match lastIndexOf l ss with
    | some i => some (i + 1)
    | none => if s = l then some 0 else none

/-- Modelled from the spec: left-to-right alignment of a pattern's path
segments against the decoded request path segments (the engine in
`request_spec.rs` is not in the provided sources). A literal requires
equality, a label consumes exactly one segment, a greedy segment consumes one
or more segments and, when followed by a literal postfix, must stop at the
last occurrence of that literal in the remaining path; the pattern matches
only if both the pattern and the path are fully consumed. -/
def matchSegs : List PathSegment → List String → Bool
  | [], ss => ss.isEmpty
  | .literal l :: ps, ss =>
    match ss with
    | [] => false
    | s :: ss' => l = s && matchSegs ps ss'
  | .label :: ps, ss =>
    match ss with
    | [] => false
    | _ :: ss' => matchSegs ps ss'
  | .greedy :: ps, ss =>
    match ps with
    | [] => !ss.isEmpty
    | .literal l :: _ =>
      match lastIndexOf l ss with
      | some i => decide (1 ≤ i) && matchSegs ps (ss.drop i)
      | none => false
    | _ => false

/-- Does the request's parsed query satisfy one query constraint?
A `key` constraint needs only the key present; a `keyValue` constraint needs
one occurrence of the key carrying exactly the given value. -/
def QuerySegment.satisfiedBy (q : QuerySegment) (pairs : List (String × String)) : Bool :=
  match q with
  | .key k => pairs.any (fun p => p.1 = k)
  | .keyValue k v => pairs.any (fun p => p.1 = k && p.2 = v)

/-- Modelled from the spec: all of the spec's query constraints must be
satisfiable by the request's query string; extra request parameters are
permitted. -/
def RequestSpec.queryOk (spec : RequestSpec) (req : Request) : Bool :=
  spec.querySegments.all (fun q => q.satisfiedBy req.queryPairs)

/-- Does the request's path and query match the spec, irrespective of the
HTTP method? -/
def RequestSpec.pathQueryMatches (spec : RequestSpec) (req : Request) : Bool :=
  matchSegs spec.pathSegments req.pathSegs && spec.queryOk req

/-- Modelled from the spec: `RequestSpec::matches`. The method check is
evaluated separately from path and query: a path+query match with a different
method yields `methodNotAllowed` rather than `no`. -/
def RequestSpec.matches (spec : RequestSpec) (req : Request) : Match :=
  if spec.pathQueryMatches req then
    if spec.method = req.method then .yes else .methodNotAllowed
  else .no

/-- Modelled from the spec: the numeric specificity score used to rank
structural matches (`RequestSpec::rank`); a spec with more path segments and
more query constraints is more specific. -/
def RequestSpec.rank (spec : RequestSpec) : Nat :=
  spec.pathSegments.length + spec.querySegments.length

/-! ## The REST router -/

/-- Why a router failed to dispatch a request; `routers::RoutingService` turns
`notFound` into an empty 404 response and `methodNotAllowed` into an empty
405 response. -/
inductive RoutingFailure where
  | notFound
  | methodNotAllowed
deriving DecidableEq, Repr

/-- The HTTP status of the routing failure's response. -/
def RoutingFailure.status : RoutingFailure → Nat
  | .notFound => 404
  | .methodNotAllowed => 405

/-- A REST router's route table: `(RequestSpec, Handler)` pairs in insertion
order. Handlers are modelled by the name the test services
(`NamedEchoUriService`) answer with. -/
abbrev RestRoutes := List (RequestSpec × String)

/-- Modelled from the spec: among all specs that fully match the request,
select the most specific one (highest `rank`), the earliest registered
winning ties — equivalent to the stable descending-rank ordering the router
applies to its route table at construction. -/
def selectBest (req : Request) : RestRoutes → Option (RequestSpec × String)
  | [] => none
  | p :: ps =>
    if p.1.matches req = .yes then
      match selectBest req ps with
      | some q => if p.1.rank < q.1.rank then some q else some p
      | none => some p
    else selectBest req ps

/-- Modelled from the spec: the REST router's match phase. Every registered
spec is evaluated; the best full match wins; with no full match the failure
is `methodNotAllowed` exactly when some spec matched on path+query with the
wrong method, and `notFound` otherwise. -/
def matchRoute (routes : RestRoutes) (req : Request) : Except RoutingFailure String :=
  match selectBest req routes with
  | some p => .ok p.2
  | none =>
    if routes.any (fun p => p.1.matches req = .methodNotAllowed) then
      .error .methodNotAllowed
    else
      .error .notFound

/-- The HTTP status the routing service answers with: the matched handler's
response status (the test services always answer 200), or the routing
failure's fixed status. -/
def outcomeStatus : Except RoutingFailure String → Nat
  | .ok _ => 200
  | .error f => f.status

/-- The name of the handler the request was dispatched to, if any. -/
def routedTo (routes : RestRoutes) (req : Request) : Option String :=
  (matchRoute routes req).toOption

/-- `Router::new_rest_json_router` (routing/mod.rs lines 175-193): build a
REST router from `(service, spec)` pairs. Construction is infallible — the
constructor returns the router, with no error path. -/
def Router.new_rest_json_router (routes : List (String × RequestSpec)) : RestRoutes :=
  routes.map (fun p => (p.2, p.1))

/-! ## The AwsJson router -/

/-- An AwsJson router's route table: operation target names mapped to
handlers, modelled by the names the test services
(`NamedEchoOperationService`) answer with. -/
abbrev AwsJsonRoutes := List (String × String)

/-- Modelled from the spec: the AwsJson (1.0/1.1) router's match phase,
checked against `awsjson_tests::simple_routing`. The URI must be the root
`/` (otherwise not-found); only `POST` is allowed (otherwise
method-not-allowed); then the `x-amz-target` header is looked up in the
target map, its absence or an unregistered value yielding not-found. -/
def awsJsonRoute (routes : AwsJsonRoutes) (req : Request) : Except RoutingFailure String :=
  if req.uri ≠ "/" then .error .notFound
  else if req.method ≠ .POST then .error .methodNotAllowed
  else
    match req.xAmzTarget with
    | none => .error .notFound
    | some t =>
      match routes.lookup t with
      | some svc => .ok svc
      | none => .error .notFound

/-! ## Test fixtures

The concrete route tables of `rest_tests::simple_routing`,
`rest_tests::basic_pattern_conflict_avoidance` and
`awsjson_tests::simple_routing`. -/

/-- Spec `A` of `simple_routing`: `GET /a/{label}/{label}`. -/
def specA : RequestSpec :=
  .from_parts .GET [.literal "a", .label, .label] []

/-- Spec `MiddleGreedy` of `simple_routing`: `GET /mg/{greedy}/z`. -/
def specMiddleGreedy : RequestSpec :=
  .from_parts .GET [.literal "mg", .greedy, .literal "z"] []

/-- Spec `Delete` of `simple_routing`: `DELETE /` requiring query `foo=bar`
and presence of query key `baz`. -/
def specDelete : RequestSpec :=
  .from_parts .DELETE [] [.keyValue "foo" "bar", .key "baz"]

/-- Spec `QueryKeyOnly` of `simple_routing`: `POST /query_key_only` requiring
presence of query key `foo`. -/
def specQueryKeyOnly : RequestSpec :=
  .from_parts .POST [.literal "query_key_only"] [.key "foo"]

/-- The route table of `rest_tests::simple_routing`. -/
def simpleRoutes : RestRoutes :=
  Router.new_rest_json_router
    [("A", specA), ("MiddleGreedy", specMiddleGreedy), ("Delete", specDelete),
     ("QueryKeyOnly", specQueryKeyOnly)]

/-- Spec `A1` of `basic_pattern_conflict_avoidance`: `GET /a/{label}`. -/
def specA1 : RequestSpec :=
  .from_parts .GET [.literal "a", .label] []

/-- Spec `A2` of `basic_pattern_conflict_avoidance`: `GET /a/{label}/a`. -/
def specA2 : RequestSpec :=
  .from_parts .GET [.literal "a", .label, .literal "a"] []

/-- Spec `B1` of `basic_pattern_conflict_avoidance`: `GET /b/{greedy}`. -/
def specB1 : RequestSpec :=
  .from_parts .GET [.literal "b", .greedy] []

/-- Spec `B2` of `basic_pattern_conflict_avoidance`: `GET /b/{greedy}`
requiring presence of query key `q`. -/
def specB2 : RequestSpec :=
  .from_parts .GET [.literal "b", .greedy] [.key "q"]

/-- A spec distinct from `B2` but equally specific (same rank):
`GET /b/{greedy}` requiring presence of query key `r` instead of `q`. -/
def specBr : RequestSpec :=
  .from_parts .GET [.literal "b", .greedy] [.key "r"]

/-- The route table of `rest_tests::basic_pattern_conflict_avoidance`. -/
def conflictRoutes : RestRoutes :=
  Router.new_rest_json_router [("A1", specA1), ("A2", specA2), ("B1", specB1), ("B2", specB2)]

/-- A GET request for a URI, as `rest_tests::req` builds it. -/
def getReq (uri : String) : Request := ⟨.GET, uri, none⟩

/-- The route table of `awsjson_tests::simple_routing`. -/
def awsJsonDemoRoutes : AwsJsonRoutes := [("Service.Operation", "A")]


/-! ## The rejection taxonomy (`rejection.rs`)

Source error types carry only opaque diagnostic payloads here: the
conversions store them type-erased (`crate::Error`), and callers must not
look inside. -/

/-- The type-erased boxed error `crate::Error` stored by most rejection
variants; only its rendered description survives erasure. -/
structure ErasedError where
  description : String
deriving DecidableEq, Repr

/-- `aws_smithy_json::deserialize::error::DeserializeError`. -/
structure DeserializeError where
  description : String
deriving DecidableEq, Repr

/-- `aws_smithy_xml::decode::XmlDecodeError`. -/
structure XmlDecodeError where
  description : String
deriving DecidableEq, Repr

/-- `aws_smithy_http::header::ParseError`. -/
structure HeaderParseError where
  description : String
deriving DecidableEq, Repr

/-- `aws_smithy_types::date_time::DateTimeParseError`. -/
structure DateTimeParseError where
  description : String
deriving DecidableEq, Repr

/-- `aws_smithy_types::primitive::PrimitiveParseError`. -/
structure PrimitiveParseError where
  description : String
deriving DecidableEq, Repr

/-- `std::str::ParseBoolError`. -/
structure ParseBoolError where
  description : String
deriving DecidableEq, Repr

/-- `std::num::ParseFloatError`. -/
structure ParseFloatError where
  description : String
deriving DecidableEq, Repr

/-- `std::num::ParseIntError`. -/
structure ParseIntError where
  description : String
deriving DecidableEq, Repr

/-- `serde_urlencoded::de::Error`. -/
structure UrlencodedError where
  description : String
deriving DecidableEq, Repr

/-- `std::str::Utf8Error`: invalid UTF-8 after percent-decoding, recording
how many bytes were valid. -/
structure Utf8Error where
  valid_up_to : Nat
deriving DecidableEq, Repr

/-- `nom::Err<nom::error::Error<&str>>`, the error of the `nom` path
pattern parser. -/
inductive NomErr where
  | incomplete
  | error (input : String) (code : Nat)
  | failure (input : String) (code : Nat)
deriving DecidableEq, Repr

/-- Rendering of a `nom` error, used when it is boxed into `crate::Error`
(`err.to_owned()` then type erasure). -/
def NomErr.describe : NomErr → String
  | .incomplete => "Parsing requires more data"
  | .error input _ => "Parsing Error: " ++ input
  | .failure input _ => "Parsing Failure: " ++ input

/-- `hyper::Error`. -/
structure HyperError where
  description : String
deriving DecidableEq, Repr

/-- `Box<dyn std::error::Error + Send + Sync>`, already type-erased. -/
structure BoxedError where
  description : String
deriving DecidableEq, Repr

/-- `http::header::ToStrError`. -/
structure ToStrError where
  description : String
deriving DecidableEq, Repr

/-- `mime::FromStrError`. -/
structure MimeFromStrError where
  description : String
deriving DecidableEq, Repr

/-- `mime::Mime`, reduced to its essence string. -/
structure Mime where
  essence : String
deriving DecidableEq, Repr

/-- `rejection::MissingContentTypeReason`: the nested reason of the
`MissingContentType` rejection. -/
inductive MissingContentTypeReason where
  | HeadersTakenByAnotherExtractor
  | NoContentTypeHeader
  | ToStrError (e : ToStrError)
  | MimeParseError (e : MimeFromStrError)
  | UnexpectedMimeType (expected_mime : Option Mime) (found_mime : Option Mime)
deriving DecidableEq, Repr

/-- `rejection::RequestRejection`: the closed set of request-deserialization
failure kinds, roughly ordered by processing stage. -/
inductive RequestRejection where
  | HttpBody (cause : ErasedError)
  | MissingContentType (reason : MissingContentTypeReason)
  | JsonDeserialize (cause : ErasedError)
  | XmlDeserialize (cause : ErasedError)
  | HeaderParse (cause : ErasedError)
  | UriPatternGreedyLabelPostfixNotFound
  | UriPatternMismatch (cause : ErasedError)
  | InvalidUtf8 (cause : ErasedError)
  | DateTimeParse (cause : ErasedError)
  | PrimitiveParse (cause : ErasedError)
  | IntParse (cause : ErasedError)
  | FloatParse (cause : ErasedError)
  | BoolParse (cause : ErasedError)
  | ConstraintViolation (description : String)
deriving DecidableEq, Repr

/-- The kind tag of a `RequestRejection`, forgetting any wrapped cause. -/
inductive RequestRejectionKind where
  | HttpBody
  | MissingContentType
  | JsonDeserialize
  | XmlDeserialize
  | HeaderParse
  | UriPatternGreedyLabelPostfixNotFound
  | UriPatternMismatch
  | InvalidUtf8
  | DateTimeParse
  | PrimitiveParse
  | IntParse
  | FloatParse
  | BoolParse
  | ConstraintViolation
deriving DecidableEq, Repr

/-- The kind of a rejection value. -/
def RequestRejection.kind : RequestRejection → RequestRejectionKind
  | .HttpBody _ => .HttpBody
  | .MissingContentType _ => .MissingContentType
  | .JsonDeserialize _ => .JsonDeserialize
  | .XmlDeserialize _ => .XmlDeserialize
  | .HeaderParse _ => .HeaderParse
  | .UriPatternGreedyLabelPostfixNotFound => .UriPatternGreedyLabelPostfixNotFound
  | .UriPatternMismatch _ => .UriPatternMismatch
  | .InvalidUtf8 _ => .InvalidUtf8
  | .DateTimeParse _ => .DateTimeParse
  | .PrimitiveParse _ => .PrimitiveParse
  | .IntParse _ => .IntParse
  | .FloatParse _ => .FloatParse
  | .BoolParse _ => .BoolParse
  | .ConstraintViolation _ => .ConstraintViolation

/-! Each `convert_to_request_rejection!(SourceType, Variant)` invocation in
`rejection.rs` (lines 203-234) defines `From<SourceType>`, building the
designated variant around the type-erased source error. -/

/-- `convert_to_request_rejection!(aws_smithy_json::deserialize::error::DeserializeError, JsonDeserialize)`. -/
def RequestRejection.ofJsonDeserializeError (e : DeserializeError) : RequestRejection :=
  .JsonDeserialize ⟨e.description⟩

/-- `convert_to_request_rejection!(aws_smithy_xml::decode::XmlDecodeError, XmlDeserialize)`. -/
def RequestRejection.ofXmlDecodeError (e : XmlDecodeError) : RequestRejection :=
  .XmlDeserialize ⟨e.description⟩

/-- `convert_to_request_rejection!(aws_smithy_http::header::ParseError, HeaderParse)`. -/
def RequestRejection.ofHeaderParseError (e : HeaderParseError) : RequestRejection :=
  .HeaderParse ⟨e.description⟩

/-- `convert_to_request_rejection!(aws_smithy_types::date_time::DateTimeParseError, DateTimeParse)`. -/
def RequestRejection.ofDateTimeParseError (e : DateTimeParseError) : RequestRejection :=
  .DateTimeParse ⟨e.description⟩

/-- `convert_to_request_rejection!(aws_smithy_types::primitive::PrimitiveParseError, PrimitiveParse)`. -/
def RequestRejection.ofPrimitiveParseError (e : PrimitiveParseError) : RequestRejection :=
  .PrimitiveParse ⟨e.description⟩

/-- `convert_to_request_rejection!(std::str::ParseBoolError, BoolParse)`. -/
def RequestRejection.ofParseBoolError (e : ParseBoolError) : RequestRejection :=
  .BoolParse ⟨e.description⟩

/-- `convert_to_request_rejection!(std::num::ParseFloatError, FloatParse)`. -/
def RequestRejection.ofParseFloatError (e : ParseFloatError) : RequestRejection :=
  .FloatParse ⟨e.description⟩

/-- `convert_to_request_rejection!(std::num::ParseIntError, IntParse)`. -/
def RequestRejection.ofParseIntError (e : ParseIntError) : RequestRejection :=
  .IntParse ⟨e.description⟩

/-- `convert_to_request_rejection!(serde_urlencoded::de::Error, InvalidUtf8)`. -/
def RequestRejection.ofUrlencodedError (e : UrlencodedError) : RequestRejection :=
  .InvalidUtf8 ⟨e.description⟩

/-- `impl From<nom::Err<nom::error::Error<&str>>> for RequestRejection`
(rejection.rs lines 213-217): always the `UriPatternMismatch` variant. -/
def RequestRejection.ofNomErr (e : NomErr) : RequestRejection :=
  .UriPatternMismatch ⟨e.describe⟩

/-- `convert_to_request_rejection!(std::str::Utf8Error, InvalidUtf8)`. -/
def RequestRejection.ofUtf8Error (e : Utf8Error) : RequestRejection :=
  .InvalidUtf8 ⟨"invalid utf-8 sequence after byte " ++ toString e.valid_up_to⟩

/-- `convert_to_request_rejection!(hyper::Error, HttpBody)`. -/
def RequestRejection.ofHyperError (e : HyperError) : RequestRejection :=
  .HttpBody ⟨e.description⟩

/-- `convert_to_request_rejection!(Box<dyn std::error::Error + Send + Sync>, HttpBody)`. -/
def RequestRejection.ofBoxedError (e : BoxedError) : RequestRejection :=
  .HttpBody ⟨e.description⟩

/-- `impl From<MissingContentTypeReason> for RequestRejection`
(rejection.rs lines 191-195). -/
def RequestRejection.ofMissingContentTypeReason (e : MissingContentTypeReason) :
    RequestRejection :=
  .MissingContentType e

/-! ## The any-of-N combinator (`rejection.rs`, module `any_rejections`) -/

/-- An HTTP response as produced by `IntoResponse`
(`http::Response<BoxBody>`), reduced to status and body. -/
structure HttpResponse where
  status : Nat
  body : String
deriving DecidableEq, Repr

/-- The protocol-indexed `IntoResponse<P>` capability: the type can be turned
into an HTTP response. -/
class IntoResponse (P : Type) (α : Type) where
  into_response : α → HttpResponse

namespace any_rejections

/-- `any_rejections::Two`, generated by `any_rejection!(Two, A, B)`. -/
inductive Two (α β : Type) where
  | A : α → Two α β
  | B : β → Two α β

/-- `any_rejections::Three`. -/
inductive Three (α β γ : Type) where
  | A : α → Three α β γ
  | B : β → Three α β γ
  | C : γ → Three α β γ

/-- `any_rejections::Four`. -/
inductive Four (α β γ δ : Type) where
  | A : α → Four α β γ δ
  | B : β → Four α β γ δ
  | C : γ → Four α β γ δ
  | D : δ → Four α β γ δ

/-- `any_rejections::Five`. -/
inductive Five (α β γ δ ε : Type) where
  | A : α → Five α β γ δ ε
  | B : β → Five α β γ δ ε
  | C : γ → Five α β γ δ ε
  | D : δ → Five α β γ δ ε
  | E : ε → Five α β γ δ ε

/-- `any_rejections::Six`. -/
inductive Six (α β γ δ ε ζ : Type) where
  | A : α → Six α β γ δ ε ζ
  | B : β → Six α β γ δ ε ζ
  | C : γ → Six α β γ δ ε ζ
  | D : δ → Six α β γ δ ε ζ
  | E : ε → Six α β γ δ ε ζ
  | F : ζ → Six α β γ δ ε ζ

/-- `any_rejections::Seven`. -/
inductive Seven (α β γ δ ε ζ η : Type) where
  | A : α → Seven α β γ δ ε ζ η
  | B : β → Seven α β γ δ ε ζ η
  | C : γ → Seven α β γ δ ε ζ η
  | D : δ → Seven α β γ δ ε ζ η
  | E : ε → Seven α β γ δ ε ζ η
  | F : ζ → Seven α β γ δ ε ζ η
  | G : η → Seven α β γ δ ε ζ η

/-- `any_rejections::Eight`. -/
inductive Eight (α β γ δ ε ζ η θ : Type) where
  | A : α → Eight α β γ δ ε ζ η θ
  | B : β → Eight α β γ δ ε ζ η θ
  | C : γ → Eight α β γ δ ε ζ η θ
  | D : δ → Eight α β γ δ ε ζ η θ
  | E : ε → Eight α β γ δ ε ζ η θ
  | F : ζ → Eight α β γ δ ε ζ η θ
  | G : η → Eight α β γ δ ε ζ η θ
  | H : θ → Eight α β γ δ ε ζ η θ

instance {P α β : Type} [ia : IntoResponse P α] [ib : IntoResponse P β] :
    IntoResponse P (Two α β) where
  into_response x :=
    match x with
    | .A a => ia.into_response a
    | .B b => ib.into_response b

instance {P α β γ : Type} [ia : IntoResponse P α] [ib : IntoResponse P β]
    [ic : IntoResponse P γ] : IntoResponse P (Three α β γ) where
  into_response x :=
    match x with
    | .A a => ia.into_response a
    | .B b => ib.into_response b
    | .C c => ic.into_response c

instance {P α β γ δ : Type} [ia : IntoResponse P α] [ib : IntoResponse P β]
    [ic : IntoResponse P γ] [id' : IntoResponse P δ] : IntoResponse P (Four α β γ δ) where
  into_response x :=
    match x with
    | .A a => ia.into_response a
    | .B b => ib.into_response b
    | .C c => ic.into_response c
    | .D d => id'.into_response d

instance {P α β γ δ ε : Type} [ia : IntoResponse P α] [ib : IntoResponse P β]
    [ic : IntoResponse P γ] [id' : IntoResponse P δ] [ie : IntoResponse P ε] :
    IntoResponse P (Five α β γ δ ε) where
  into_response x :=
    match x with
    | .A a => ia.into_response a
    | .B b => ib.into_response b
    | .C c => ic.into_response c
    | .D d => id'.into_response d
    | .E e => ie.into_response e

instance {P α β γ δ ε ζ : Type} [ia : IntoResponse P α] [ib : IntoResponse P β]
    [ic : IntoResponse P γ] [id' : IntoResponse P δ] [ie : IntoResponse P ε]
    [jf : IntoResponse P ζ] : IntoResponse P (Six α β γ δ ε ζ) where
  into_response x :=
    match x with
    | .A a => ia.into_response a
    | .B b => ib.into_response b
    | .C c => ic.into_response c
    | .D d => id'.into_response d
    | .E e => ie.into_response e
    | .F f => jf.into_response f

instance {P α β γ δ ε ζ η : Type} [ia : IntoResponse P α] [ib : IntoResponse P β]
    [ic : IntoResponse P γ] [id' : IntoResponse P δ] [ie : IntoResponse P ε]
    [jf : IntoResponse P ζ] [jg : IntoResponse P η] : IntoResponse P (Seven α β γ δ ε ζ η) where
  into_response x :=
    match x with
    | .A a => ia.into_response a
    | .B b => ib.into_response b
    | .C c => ic.into_response c
    | .D d => id'.into_response d
    | .E e => ie.into_response e
    | .F f => jf.into_response f
    | .G g => jg.into_response g

instance {P α β γ δ ε ζ η θ : Type} [ia : IntoResponse P α] [ib : IntoResponse P β]
    [ic : IntoResponse P γ] [id' : IntoResponse P δ] [ie : IntoResponse P ε]
    [jf : IntoResponse P ζ] [jg : IntoResponse P η] [jh : IntoResponse P θ] :
    IntoResponse P (Eight α β γ δ ε ζ η θ) where
  into_response x :=
    match x with
    | .A a => ia.into_response a
    | .B b => ib.into_response b
    | .C c => ic.into_response c
    | .D d => id'.into_response d
    | .E e => ie.into_response e
    | .F f => jf.into_response f
    | .G g => jg.into_response g
    | .H h => jh.into_response h

end any_rejections

/-! ## Lemmas about spec matching and route selection -/

theorem pathQuery_of_yes {spec : RequestSpec} {req : Request}
    (h : spec.matches req = Match.yes) : spec.pathQueryMatches req = true := by
  unfold RequestSpec.matches at h
  by_cases hpq : spec.pathQueryMatches req = true
  · exact hpq
  · simp [hpq] at h

theorem pathQuery_of_mna {spec : RequestSpec} {req : Request}
    (h : spec.matches req = Match.methodNotAllowed) : spec.pathQueryMatches req = true := by
  unfold RequestSpec.matches at h
  by_cases hpq : spec.pathQueryMatches req = true
  · exact hpq
  · simp [hpq] at h

theorem matches_cases_of_pathQuery {spec : RequestSpec} {req : Request}
    (h : spec.pathQueryMatches req = true) :
    spec.matches req = Match.yes ∨ spec.matches req = Match.methodNotAllowed := by
  unfold RequestSpec.matches
  rw [if_pos h]
  by_cases hm : spec.method = req.method
  · exact Or.inl (if_pos hm)
  · exact Or.inr (if_neg hm)

theorem selectBest_eq_none_iff (req : Request) (routes : RestRoutes) :
    selectBest req routes = none ↔ ∀ p ∈ routes, p.1.matches req ≠ Match.yes := by
  induction routes with
  | nil => simp [selectBest]
  | cons a as ih =>
    by_cases ha : a.1.matches req = Match.yes
    · rcases hs : selectBest req as with _ | q
      · simp only [selectBest, if_pos ha, hs]
        exact iff_of_false (by simp) (fun h => absurd ha (h a (List.mem_cons_self a as)))
      · simp only [selectBest, if_pos ha, hs]
        refine iff_of_false ?_ (fun h => absurd ha (h a (List.mem_cons_self a as)))
        by_cases hr : a.1.rank < q.1.rank <;> simp [hr]
    · rw [selectBest, if_neg ha]
      constructor
      · intro h p hp
        rcases List.mem_cons.mp hp with rfl | hp'
        · exact ha
        · exact ih.mp h p hp'
      · intro h
        exact ih.mpr fun p hp => h p (List.mem_cons_of_mem a hp)

theorem selectBest_eq_some (req : Request) (routes : RestRoutes) (p : RequestSpec × String)
    (h : selectBest req routes = some p) :
    p ∈ routes ∧ p.1.matches req = Match.yes ∧
      ∀ q ∈ routes, q.1.matches req = Match.yes → q.1.rank ≤ p.1.rank := by
  induction routes generalizing p with
  | nil => simp [selectBest] at h
  | cons a as ih =>
    by_cases ha : a.1.matches req = Match.yes
    · rcases hs : selectBest req as with _ | q
      · simp only [selectBest, if_pos ha, hs] at h
        obtain rfl : a = p := by injection h
        refine ⟨List.mem_cons_self a as, ha, ?_⟩
        intro r hr hry
        rcases List.mem_cons.mp hr with rfl | hr'
        · exact Nat.le_refl _
        · exact absurd hry ((selectBest_eq_none_iff req as).mp hs r hr')
      · simp only [selectBest, if_pos ha, hs] at h
        obtain ⟨hqmem, hqyes, hqmax⟩ := ih q hs
        by_cases hlt : a.1.rank < q.1.rank
        · rw [if_pos hlt] at h
          obtain rfl : q = p := by injection h
          refine ⟨List.mem_cons_of_mem a hqmem, hqyes, ?_⟩
          intro r hr hry
          rcases List.mem_cons.mp hr with rfl | hr'
          · exact Nat.le_of_lt hlt
          · exact hqmax r hr' hry
        · rw [if_neg hlt] at h
          obtain rfl : a = p := by injection h
          refine ⟨List.mem_cons_self a as, ha, ?_⟩
          intro r hr hry
          rcases List.mem_cons.mp hr with rfl | hr'
          · exact Nat.le_refl _
          · exact Nat.le_trans (hqmax r hr' hry) (Nat.le_of_not_lt hlt)
    · rw [selectBest, if_neg ha] at h
      obtain ⟨hmem, hyes, hmax⟩ := ih p h
      refine ⟨List.mem_cons_of_mem a hmem, hyes, ?_⟩
      intro r hr hry
      rcases List.mem_cons.mp hr with rfl | hr'
      · exact absurd hry ha
      · exact hmax r hr' hry

theorem matchRoute_eq_mna_iff (routes : RestRoutes) (req : Request) :
    matchRoute routes req = Except.error RoutingFailure.methodNotAllowed ↔
      (∃ p ∈ routes, p.1.pathQueryMatches req = true) ∧
        ¬ ∃ p ∈ routes, p.1.matches req = Match.yes := by
  rcases hsel : selectBest req routes with _ | p
  · have hnone := (selectBest_eq_none_iff req routes).mp hsel
    simp only [matchRoute, hsel]
    split
    next hany =>
      obtain ⟨q, hq, hqm⟩ := List.any_eq_true.mp hany
      rw [decide_eq_true_eq] at hqm
      refine iff_of_true rfl ⟨⟨q, hq, pathQuery_of_mna hqm⟩, ?_⟩
      rintro ⟨r, hr, hry⟩
      exact hnone r hr hry
    next hany =>
      have hno : ∀ p ∈ routes, p.1.matches req ≠ Match.methodNotAllowed := by
        intro r hr hrm
        exact hany (List.any_eq_true.mpr ⟨r, hr, decide_eq_true hrm⟩)
      refine iff_of_false (by simp) ?_
      rintro ⟨⟨r, hr, hrq⟩, _⟩
      rcases matches_cases_of_pathQuery hrq with hy | hm
      · exact hnone r hr hy
      · exact hno r hr hm
  · obtain ⟨hmem, hyes, _⟩ := selectBest_eq_some req routes p hsel
    simp only [matchRoute, hsel]
    refine iff_of_false (by simp) ?_
    rintro ⟨_, hnoyes⟩
    exact hnoyes ⟨p, hmem, hyes⟩

theorem matchRoute_eq_nf_iff (routes : RestRoutes) (req : Request) :
    matchRoute routes req = Except.error RoutingFailure.notFound ↔
      ¬ ∃ p ∈ routes, p.1.pathQueryMatches req = true := by
  rcases hsel : selectBest req routes with _ | p
  · have hnone := (selectBest_eq_none_iff req routes).mp hsel
    simp only [matchRoute, hsel]
    split
    next hany =>
      obtain ⟨q, hq, hqm⟩ := List.any_eq_true.mp hany
      rw [decide_eq_true_eq] at hqm
      refine iff_of_false (by simp) ?_
      intro hno
      exact hno ⟨q, hq, pathQuery_of_mna hqm⟩
    next hany =>
      have hno : ∀ p ∈ routes, p.1.matches req ≠ Match.methodNotAllowed := by
        intro r hr hrm
        exact hany (List.any_eq_true.mpr ⟨r, hr, decide_eq_true hrm⟩)
      refine iff_of_true rfl ?_
      rintro ⟨r, hr, hrq⟩
      rcases matches_cases_of_pathQuery hrq with hy | hm
      · exact hnone r hr hy
      · exact hno r hr hm
  · obtain ⟨hmem, hyes, _⟩ := selectBest_eq_some req routes p hsel
    simp only [matchRoute, hsel]
    refine iff_of_false (by simp) ?_
    intro hnopq
    exact hnopq ⟨p, hmem, pathQuery_of_yes hyes⟩

theorem outcomeStatus_eq_405_iff (r : Except RoutingFailure String) :
    outcomeStatus r = 405 ↔ r = Except.error RoutingFailure.methodNotAllowed := by
  cases r with
  | ok s => simp [outcomeStatus]
  | error f => cases f <;> simp [outcomeStatus, RoutingFailure.status]

theorem outcomeStatus_eq_404_iff (r : Except RoutingFailure String) :
    outcomeStatus r = 404 ↔ r = Except.error RoutingFailure.notFound := by
  cases r with
  | ok s => simp [outcomeStatus]
  | error f => cases f <;> simp [outcomeStatus, RoutingFailure.status]

/-! ## The model reproduces the in-source test suites -/

/-- Every dispatch expectation of `rest_tests::simple_routing` (the `hits`
list) holds in the model. -/
theorem model_simple_routing_hits :
    routedTo simpleRoutes (getReq "/a/b/c") = some "A" ∧
      routedTo simpleRoutes (getReq "/mg/a/z") = some "MiddleGreedy" ∧
      routedTo simpleRoutes (getReq "/mg/a/b/c/d/z?abc=def") = some "MiddleGreedy" ∧
      routedTo simpleRoutes ⟨.DELETE, "/?foo=bar&baz=quux", none⟩ = some "Delete" ∧
      routedTo simpleRoutes ⟨.DELETE, "/?foo=bar&baz", none⟩ = some "Delete" ∧
      routedTo simpleRoutes ⟨.DELETE, "/?foo=bar&baz=&", none⟩ = some "Delete" ∧
      routedTo simpleRoutes ⟨.DELETE, "/?foo=bar&baz=quux&baz=grault", none⟩ = some "Delete" ∧
      routedTo simpleRoutes ⟨.POST, "/query_key_only?foo=bar", none⟩ = some "QueryKeyOnly" ∧
      routedTo simpleRoutes ⟨.POST, "/query_key_only?foo", none⟩ = some "QueryKeyOnly" ∧
      routedTo simpleRoutes ⟨.POST, "/query_key_only?foo=", none⟩ = some "QueryKeyOnly" ∧
      routedTo simpleRoutes ⟨.POST, "/query_key_only?foo=&", none⟩ = some "QueryKeyOnly" := by
  decide

/-- Every method-miss expectation of `rest_tests::simple_routing`: each hit
URI requested with `PATCH` yields 405. -/
theorem model_simple_routing_method_misses :
    outcomeStatus (matchRoute simpleRoutes ⟨.PATCH, "/a/b/c", none⟩) = 405 ∧
      outcomeStatus (matchRoute simpleRoutes ⟨.PATCH, "/mg/a/z", none⟩) = 405 ∧
      outcomeStatus (matchRoute simpleRoutes ⟨.PATCH, "/mg/a/b/c/d/z?abc=def", none⟩) = 405 ∧
      outcomeStatus (matchRoute simpleRoutes ⟨.PATCH, "/?foo=bar&baz=quux", none⟩) = 405 ∧
      outcomeStatus (matchRoute simpleRoutes ⟨.PATCH, "/?foo=bar&baz", none⟩) = 405 ∧
      outcomeStatus (matchRoute simpleRoutes ⟨.PATCH, "/?foo=bar&baz=&", none⟩) = 405 ∧
      outcomeStatus (matchRoute simpleRoutes ⟨.PATCH, "/?foo=bar&baz=quux&baz=grault", none⟩) = 405 ∧
      outcomeStatus (matchRoute simpleRoutes ⟨.PATCH, "/query_key_only?foo=bar", none⟩) = 405 ∧
      outcomeStatus (matchRoute simpleRoutes ⟨.PATCH, "/query_key_only?foo", none⟩) = 405 ∧
      outcomeStatus (matchRoute simpleRoutes ⟨.PATCH, "/query_key_only?foo=", none⟩) = 405 ∧
      outcomeStatus (matchRoute simpleRoutes ⟨.PATCH, "/query_key_only?foo=&", none⟩) = 405 := by
  decide

/-- Every not-found expectation of `rest_tests::simple_routing` (the
`misses` list) yields 404 in the model. -/
theorem model_simple_routing_misses :
    outcomeStatus (matchRoute simpleRoutes (getReq "/a")) = 404 ∧
      outcomeStatus (matchRoute simpleRoutes (getReq "/a/b")) = 404 ∧
      outcomeStatus (matchRoute simpleRoutes (getReq "/mg")) = 404 ∧
      outcomeStatus (matchRoute simpleRoutes (getReq "/mg/q")) = 404 ∧
      outcomeStatus (matchRoute simpleRoutes (getReq "/mg/z")) = 404 ∧
      outcomeStatus (matchRoute simpleRoutes (getReq "/mg/a/b/z/c")) = 404 ∧
      outcomeStatus (matchRoute simpleRoutes ⟨.DELETE, "/?foo=bar", none⟩) = 404 ∧
      outcomeStatus (matchRoute simpleRoutes ⟨.DELETE, "/?baz=quux", none⟩) = 404 ∧
      outcomeStatus (matchRoute simpleRoutes ⟨.POST, "/query_key_only?baz=quux", none⟩) = 404 ∧
      outcomeStatus (matchRoute simpleRoutes (getReq "/")) = 404 ∧
      outcomeStatus (matchRoute simpleRoutes ⟨.POST, "/", none⟩) = 404 := by
  decide

/-- Every expectation of `rest_tests::basic_pattern_conflict_avoidance`
holds in the model. -/
theorem model_conflict_avoidance :
    routedTo conflictRoutes (getReq "/a/foo") = some "A1" ∧
      routedTo conflictRoutes (getReq "/a/foo/a") = some "A2" ∧
      routedTo conflictRoutes (getReq "/b/foo/bar/baz") = some "B1" ∧
      routedTo conflictRoutes (getReq "/b/foo?q=baz") = some "B2" := by
  decide

/-- Every expectation of `awsjson_tests::simple_routing` holds in the
model. -/
theorem model_awsjson_simple_routing :
    awsJsonRoute awsJsonDemoRoutes ⟨.POST, "/", some "Service.Operation"⟩ = .ok "A" ∧
      outcomeStatus (awsJsonRoute awsJsonDemoRoutes ⟨.POST, "/", none⟩) = 404 ∧
      outcomeStatus (awsJsonRoute awsJsonDemoRoutes ⟨.GET, "/", some "Service.Operation"⟩) = 405 ∧
      outcomeStatus
        (awsJsonRoute awsJsonDemoRoutes ⟨.POST, "/something", some "Service.Operation"⟩) = 404 := by
  decide

/-! ## The claims -/

/-- Claim C1: for every REST router and every request, the routing response
has status 405 iff some registered spec's path+query matches the request
irrespective of HTTP method while no spec matches including the method, and
status 404 iff no registered spec's path+query matches at all. -/
theorem claim_c1_rest_status_iff (routes : RestRoutes) (req : Request) :
    (outcomeStatus (matchRoute routes req) = 405 ↔
      (∃ p ∈ routes, p.1.pathQueryMatches req = true) ∧
        ¬ ∃ p ∈ routes, p.1.matches req = Match.yes) ∧
    (outcomeStatus (matchRoute routes req) = 404 ↔
      ¬ ∃ p ∈ routes, p.1.pathQueryMatches req = true) :=
  ⟨(outcomeStatus_eq_405_iff _).trans (matchRoute_eq_mna_iff routes req),
   (outcomeStatus_eq_404_iff _).trans (matchRoute_eq_nf_iff routes req)⟩

/-- Claim C2, counterexample: registering the same spec twice (two specs that
are equally specific for every request) does not fail at construction —
`Router::new_rest_json_router` is infallible and returns a router, and that
router silently dispatches a matching request to the first-registered of the
two at runtime. -/
theorem claim_c2_counterexample :
    Router.new_rest_json_router [("one", specA1), ("two", specA1)] =
        ([(specA1, "one"), (specA1, "two")] : RestRoutes) ∧
      matchRoute (Router.new_rest_json_router [("one", specA1), ("two", specA1)])
          (getReq "/a/foo") = Except.ok "one" := by
  decide

/-- Claim C2 (amended): registering any two equally-specific specs (equal
rank, both fully matching a request) does not fail at construction; the
constructor is infallible, and at request time the router deterministically
dispatches to the first-registered of the two. -/
theorem claim_c2_first_registered_wins (s₁ s₂ : RequestSpec) (h₁ h₂ : String) (req : Request)
    (hrank : s₁.rank = s₂.rank) (hy₁ : s₁.matches req = Match.yes)
    (hy₂ : s₂.matches req = Match.yes) :
    matchRoute (Router.new_rest_json_router [(h₁, s₁), (h₂, s₂)]) req = Except.ok h₁ := by
  simp [Router.new_rest_json_router, matchRoute, selectBest, hy₁, hy₂, hrank, Nat.lt_irrefl]

/-- Witness for the amended claim C2: two distinct, equally-specific specs
(`GET /b/{greedy}` with `Key(q)` vs `Key(r)`) both match
`GET /b/x?q=1&r=1`; the first registered wins. -/
theorem claim_c2_witness :
    matchRoute (Router.new_rest_json_router [("one", specB2), ("two", specBr)])
      (getReq "/b/x?q=1&r=1") = Except.ok "one" :=
  claim_c2_first_registered_wins specB2 specBr "one" "two" (getReq "/b/x?q=1&r=1")
    (by decide) (by decide) (by decide)

/-- Claim C3: with specs `GET /a/{label}` and `GET /a/{label}/a` registered,
`GET /a/foo` dispatches to the first and `GET /a/foo/a` to the second; with
two specs over `/b/{greedy}` differing only in requiring query key `q`,
`GET /b/foo?q=baz` dispatches to the one requiring `q`. -/
theorem claim_c3_specificity_dispatch :
    routedTo conflictRoutes (getReq "/a/foo") = some "A1" ∧
      routedTo conflictRoutes (getReq "/a/foo/a") = some "A2" ∧
      routedTo conflictRoutes (getReq "/b/foo?q=baz") = some "B2" := by
  decide

/-- Claim C4: the pattern `GET /mg/{greedy}/z` matches `/mg/a/z` and
`/mg/a/b/c/d/z?abc=def` (extra query ignored) but not `/mg/z` (greedy needs
at least one segment) nor `/mg/a/b/z/c` (the literal postfix must end the
path), the two misses yielding 404 from the `simple_routing` router. -/
theorem claim_c4_greedy_matching :
    specMiddleGreedy.matches (getReq "/mg/a/z") = Match.yes ∧
      specMiddleGreedy.matches (getReq "/mg/a/b/c/d/z?abc=def") = Match.yes ∧
      specMiddleGreedy.matches (getReq "/mg/z") = Match.no ∧
      specMiddleGreedy.matches (getReq "/mg/a/b/z/c") = Match.no ∧
      routedTo simpleRoutes (getReq "/mg/a/z") = some "MiddleGreedy" ∧
      routedTo simpleRoutes (getReq "/mg/a/b/c/d/z?abc=def") = some "MiddleGreedy" ∧
      outcomeStatus (matchRoute simpleRoutes (getReq "/mg/z")) = 404 ∧
      outcomeStatus (matchRoute simpleRoutes (getReq "/mg/a/b/z/c")) = 404 := by
  decide

/-- Claim C5: for the spec requiring `foo=bar` and presence of `baz`, the
query strings `foo=bar&baz=quux`, `foo=bar&baz`, `foo=bar&baz=&` (and a
repeated `baz`) satisfy the constraints, while `foo=bar` alone and
`baz=quux` alone do not. -/
theorem claim_c5_query_constraints :
    specDelete.queryOk ⟨.DELETE, "/?foo=bar&baz=quux", none⟩ = true ∧
      specDelete.queryOk ⟨.DELETE, "/?foo=bar&baz", none⟩ = true ∧
      specDelete.queryOk ⟨.DELETE, "/?foo=bar&baz=&", none⟩ = true ∧
      specDelete.queryOk ⟨.DELETE, "/?foo=bar&baz=quux&baz=grault", none⟩ = true ∧
      specDelete.queryOk ⟨.DELETE, "/?foo=bar", none⟩ = false ∧
      specDelete.queryOk ⟨.DELETE, "/?baz=quux", none⟩ = false ∧
      routedTo simpleRoutes ⟨.DELETE, "/?foo=bar&baz=quux", none⟩ = some "Delete" ∧
      routedTo simpleRoutes ⟨.DELETE, "/?foo=bar&baz", none⟩ = some "Delete" ∧
      routedTo simpleRoutes ⟨.DELETE, "/?foo=bar&baz=&", none⟩ = some "Delete" ∧
      outcomeStatus (matchRoute simpleRoutes ⟨.DELETE, "/?foo=bar", none⟩) = 404 ∧
      outcomeStatus (matchRoute simpleRoutes ⟨.DELETE, "/?baz=quux", none⟩) = 404 := by
  decide

/-- Claim C6, counterexample: a POST request with a registered
`x-amz-target` but URI `/something` is not dispatched — it receives
not-found — and a GET request to `/` with the header absent receives
method-not-allowed rather than the claimed not-found. -/
theorem claim_c6_counterexample :
    awsJsonDemoRoutes.lookup "Service.Operation" = some "A" ∧
      awsJsonRoute awsJsonDemoRoutes ⟨.POST, "/something", some "Service.Operation"⟩ =
        Except.error RoutingFailure.notFound ∧
      awsJsonRoute awsJsonDemoRoutes ⟨.GET, "/", none⟩ =
        Except.error RoutingFailure.methodNotAllowed := by
  decide

/-- Claim C6 (amended): for every AwsJson router, a request whose URI is not
`/` receives 404 regardless of method and header; at URI `/` a non-POST
request receives 405 regardless of header; a POST to `/` whose
`x-amz-target` header is registered dispatches to exactly that target's
handler; and a POST to `/` with the header absent or unregistered receives
404. -/
theorem claim_c6_awsjson_behavior (routes : AwsJsonRoutes) (req : Request) :
    (req.uri ≠ "/" → awsJsonRoute routes req = Except.error RoutingFailure.notFound) ∧
      (req.uri = "/" → req.method ≠ Method.POST →
        awsJsonRoute routes req = Except.error RoutingFailure.methodNotAllowed) ∧
      (∀ t s, req.uri = "/" → req.method = Method.POST → req.xAmzTarget = some t →
        routes.lookup t = some s → awsJsonRoute routes req = Except.ok s) ∧
      (req.uri = "/" → req.method = Method.POST → req.xAmzTarget = none →
        awsJsonRoute routes req = Except.error RoutingFailure.notFound) ∧
      (∀ t, req.uri = "/" → req.method = Method.POST → req.xAmzTarget = some t →
        routes.lookup t = none → awsJsonRoute routes req = Except.error RoutingFailure.notFound) := by
  refine ⟨?_, ?_, ?_, ?_, ?_⟩
  · intro h
    simp [awsJsonRoute, h]
  · intro h hm
    simp [awsJsonRoute, h, hm]
  · intro t s h hm ht hl
    simp [awsJsonRoute, h, hm, ht, hl]
  · intro h hm ht
    simp [awsJsonRoute, h, hm, ht]
  · intro t h hm ht hl
    simp [awsJsonRoute, h, hm, ht, hl]

/-- Witness for the amended claim C6: wrong method at the root URI with a
valid target header yields method-not-allowed. -/
theorem claim_c6_witness :
    awsJsonRoute awsJsonDemoRoutes ⟨Method.GET, "/", some "Service.Operation"⟩ =
      Except.error RoutingFailure.methodNotAllowed :=
  (claim_c6_awsjson_behavior awsJsonDemoRoutes ⟨Method.GET, "/", some "Service.Operation"⟩).2.1
    rfl (by decide)

/-- Claim C7, counterexample: two equally-specific specs registered in the
two possible orders route the same request to different handlers, so
dispatch is not invariant under every permutation of every spec set. -/
theorem claim_c7_counterexample :
    ([(specA1, "one"), (specA1, "two")] : RestRoutes).Perm
        [(specA1, "two"), (specA1, "one")] ∧
      matchRoute [(specA1, "one"), (specA1, "two")] (getReq "/a/foo") = Except.ok "one" ∧
      matchRoute [(specA1, "two"), (specA1, "one")] (getReq "/a/foo") = Except.ok "two" ∧
      (Except.ok "one" : Except RoutingFailure String) ≠ Except.ok "two" :=
  ⟨List.Perm.swap (specA1, "two") (specA1, "one") [], by decide, by decide, by decide⟩

/-- Claim C7 (amended): for spec sets in which no two distinct registered
entries both fully match a given request with equal specificity rank, the
REST router's outcome (selected handler or routing failure) is the same for
every permutation of the registration order. -/
theorem claim_c7_order_invariance (routes routes' : RestRoutes) (req : Request)
    (hperm : routes.Perm routes')
    (huniq : ∀ p ∈ routes, ∀ q ∈ routes, p.1.matches req = Match.yes →
      q.1.matches req = Match.yes → p.1.rank = q.1.rank → p = q) :
    matchRoute routes req = matchRoute routes' req := by
  rcases h1 : selectBest req routes with _ | p <;> rcases h2 : selectBest req routes' with _ | p'
  · simp only [matchRoute, h1, h2]
    have hany : (routes.any fun p => p.1.matches req = Match.methodNotAllowed)
        = (routes'.any fun p => p.1.matches req = Match.methodNotAllowed) := by
      refine Bool.eq_iff_iff.mpr ?_
      rw [List.any_eq_true, List.any_eq_true]
      exact ⟨fun ⟨x, hx, hd⟩ => ⟨x, hperm.mem_iff.mp hx, hd⟩,
             fun ⟨x, hx, hd⟩ => ⟨x, hperm.mem_iff.mpr hx, hd⟩⟩
    rw [hany]
  · obtain ⟨hmem', hyes', _⟩ := selectBest_eq_some req routes' p' h2
    exact absurd hyes'
      ((selectBest_eq_none_iff req routes).mp h1 p' (hperm.mem_iff.mpr hmem'))
  · obtain ⟨hmem, hyes, _⟩ := selectBest_eq_some req routes p h1
    exact absurd hyes
      ((selectBest_eq_none_iff req routes').mp h2 p (hperm.mem_iff.mp hmem))
  · obtain ⟨hm1, hy1, hmax1⟩ := selectBest_eq_some req routes p h1
    obtain ⟨hm2', hy2, hmax2⟩ := selectBest_eq_some req routes' p' h2
    have hm2 : p' ∈ routes := hperm.mem_iff.mpr hm2'
    have hle1 : p'.1.rank ≤ p.1.rank := hmax1 p' hm2 hy2
    have hle2 : p.1.rank ≤ p'.1.rank := hmax2 p (hperm.mem_iff.mp hm1) hy1
    have heq : p = p' := huniq p hm1 p' hm2 hy1 hy2 (Nat.le_antisymm hle2 hle1)
    simp only [matchRoute, h1, h2, heq]

/-- Witness for the amended claim C7: the conflict-avoidance route table and
its reversal route `GET /b/foo?q=baz` identically. -/
theorem claim_c7_witness :
    matchRoute conflictRoutes (getReq "/b/foo?q=baz") =
      matchRoute conflictRoutes.reverse (getReq "/b/foo?q=baz") :=
  claim_c7_order_invariance conflictRoutes conflictRoutes.reverse (getReq "/b/foo?q=baz")
    (List.reverse_perm conflictRoutes).symm (by decide)

/-- Claim C8: every source error type with a conversion into
`RequestRejection` converts into exactly one fixed variant, deterministically
— for every input value the resulting rejection's kind is the designated
one. -/
theorem claim_c8_rejection_conversion_kinds :
    (∀ e : DeserializeError,
      (RequestRejection.ofJsonDeserializeError e).kind = RequestRejectionKind.JsonDeserialize) ∧
    (∀ e : XmlDecodeError,
      (RequestRejection.ofXmlDecodeError e).kind = RequestRejectionKind.XmlDeserialize) ∧
    (∀ e : HeaderParseError,
      (RequestRejection.ofHeaderParseError e).kind = RequestRejectionKind.HeaderParse) ∧
    (∀ e : DateTimeParseError,
      (RequestRejection.ofDateTimeParseError e).kind = RequestRejectionKind.DateTimeParse) ∧
    (∀ e : PrimitiveParseError,
      (RequestRejection.ofPrimitiveParseError e).kind = RequestRejectionKind.PrimitiveParse) ∧
    (∀ e : ParseBoolError,
      (RequestRejection.ofParseBoolError e).kind = RequestRejectionKind.BoolParse) ∧
    (∀ e : ParseFloatError,
      (RequestRejection.ofParseFloatError e).kind = RequestRejectionKind.FloatParse) ∧
    (∀ e : ParseIntError,
      (RequestRejection.ofParseIntError e).kind = RequestRejectionKind.IntParse) ∧
    (∀ e : UrlencodedError,
      (RequestRejection.ofUrlencodedError e).kind = RequestRejectionKind.InvalidUtf8) ∧
    (∀ e : NomErr,
      (RequestRejection.ofNomErr e).kind = RequestRejectionKind.UriPatternMismatch) ∧
    (∀ e : Utf8Error,
      (RequestRejection.ofUtf8Error e).kind = RequestRejectionKind.InvalidUtf8) ∧
    (∀ e : HyperError,
      (RequestRejection.ofHyperError e).kind = RequestRejectionKind.HttpBody) ∧
    (∀ e : BoxedError,
      (RequestRejection.ofBoxedError e).kind = RequestRejectionKind.HttpBody) ∧
    (∀ e : MissingContentTypeReason,
      (RequestRejection.ofMissingContentTypeReason e).kind
        = RequestRejectionKind.MissingContentType) :=
  ⟨fun _ => rfl, fun _ => rfl, fun _ => rfl, fun _ => rfl, fun _ => rfl, fun _ => rfl,
   fun _ => rfl, fun _ => rfl, fun _ => rfl, fun _ => rfl, fun _ => rfl, fun _ => rfl,
   fun _ => rfl, fun _ => rfl⟩

open any_rejections

/-- Claim C9: the any-of-N combinator provides tagged unions of every arity
from 2 through 8; whenever all member types have the `IntoResponse`
capability, so does the union, and converting a union value into a response
equals converting its populated member directly, for every variant position
and every member value. -/
theorem claim_c9_any_rejections_dispatch (P α β γ δ ε ζ η θ : Type)
    [ia : IntoResponse P α] [ib : IntoResponse P β] [ic : IntoResponse P γ]
    [id' : IntoResponse P δ] [ie : IntoResponse P ε] [jf : IntoResponse P ζ]
    [jg : IntoResponse P η] [jh : IntoResponse P θ] :
    (∀ a : α, @IntoResponse.into_response P (Two α β) _ (Two.A a) = ia.into_response a) ∧
    (∀ b : β, @IntoResponse.into_response P (Two α β) _ (Two.B b) = ib.into_response b) ∧
    (∀ a : α, @IntoResponse.into_response P (Three α β γ) _ (Three.A a) = ia.into_response a) ∧
    (∀ b : β, @IntoResponse.into_response P (Three α β γ) _ (Three.B b) = ib.into_response b) ∧
    (∀ c : γ, @IntoResponse.into_response P (Three α β γ) _ (Three.C c) = ic.into_response c) ∧
    (∀ a : α, @IntoResponse.into_response P (Four α β γ δ) _ (Four.A a) = ia.into_response a) ∧
    (∀ b : β, @IntoResponse.into_response P (Four α β γ δ) _ (Four.B b) = ib.into_response b) ∧
    (∀ c : γ, @IntoResponse.into_response P (Four α β γ δ) _ (Four.C c) = ic.into_response c) ∧
    (∀ d : δ, @IntoResponse.into_response P (Four α β γ δ) _ (Four.D d) = id'.into_response d) ∧
    (∀ a : α, @IntoResponse.into_response P (Five α β γ δ ε) _ (Five.A a) = ia.into_response a) ∧
    (∀ b : β, @IntoResponse.into_response P (Five α β γ δ ε) _ (Five.B b) = ib.into_response b) ∧
    (∀ c : γ, @IntoResponse.into_response P (Five α β γ δ ε) _ (Five.C c) = ic.into_response c) ∧
    (∀ d : δ, @IntoResponse.into_response P (Five α β γ δ ε) _ (Five.D d) = id'.into_response d) ∧
    (∀ e : ε, @IntoResponse.into_response P (Five α β γ δ ε) _ (Five.E e) = ie.into_response e) ∧
    (∀ a : α, @IntoResponse.into_response P (Six α β γ δ ε ζ) _ (Six.A a) = ia.into_response a) ∧
    (∀ b : β, @IntoResponse.into_response P (Six α β γ δ ε ζ) _ (Six.B b) = ib.into_response b) ∧
    (∀ c : γ, @IntoResponse.into_response P (Six α β γ δ ε ζ) _ (Six.C c) = ic.into_response c) ∧
    (∀ d : δ, @IntoResponse.into_response P (Six α β γ δ ε ζ) _ (Six.D d) = id'.into_response d) ∧
    (∀ e : ε, @IntoResponse.into_response P (Six α β γ δ ε ζ) _ (Six.E e) = ie.into_response e) ∧
    (∀ f : ζ, @IntoResponse.into_response P (Six α β γ δ ε ζ) _ (Six.F f) = jf.into_response f) ∧
    (∀ a : α, @IntoResponse.into_response P (Seven α β γ δ ε ζ η) _ (Seven.A a) = ia.into_response a) ∧
    (∀ b : β, @IntoResponse.into_response P (Seven α β γ δ ε ζ η) _ (Seven.B b) = ib.into_response b) ∧
    (∀ c : γ, @IntoResponse.into_response P (Seven α β γ δ ε ζ η) _ (Seven.C c) = ic.into_response c) ∧
    (∀ d : δ, @IntoResponse.into_response P (Seven α β γ δ ε ζ η) _ (Seven.D d) = id'.into_response d) ∧
    (∀ e : ε, @IntoResponse.into_response P (Seven α β γ δ ε ζ η) _ (Seven.E e) = ie.into_response e) ∧
    (∀ f : ζ, @IntoResponse.into_response P (Seven α β γ δ ε ζ η) _ (Seven.F f) = jf.into_response f) ∧
    (∀ g : η, @IntoResponse.into_response P (Seven α β γ δ ε ζ η) _ (Seven.G g) = jg.into_response g) ∧
    (∀ a : α, @IntoResponse.into_response P (Eight α β γ δ ε ζ η θ) _ (Eight.A a) = ia.into_response a) ∧
    (∀ b : β, @IntoResponse.into_response P (Eight α β γ δ ε ζ η θ) _ (Eight.B b) = ib.into_response b) ∧
    (∀ c : γ, @IntoResponse.into_response P (Eight α β γ δ ε ζ η θ) _ (Eight.C c) = ic.into_response c) ∧
    (∀ d : δ, @IntoResponse.into_response P (Eight α β γ δ ε ζ η θ) _ (Eight.D d) = id'.into_response d) ∧
    (∀ e : ε, @IntoResponse.into_response P (Eight α β γ δ ε ζ η θ) _ (Eight.E e) = ie.into_response e) ∧
    (∀ f : ζ, @IntoResponse.into_response P (Eight α β γ δ ε ζ η θ) _ (Eight.F f) = jf.into_response f) ∧
    (∀ g : η, @IntoResponse.into_response P (Eight α β γ δ ε ζ η θ) _ (Eight.G g) = jg.into_response g) ∧
    (∀ h : θ, @IntoResponse.into_response P (Eight α β γ δ ε ζ η θ) _ (Eight.H h) = jh.into_response h) :=
  ⟨fun _ => rfl, fun _ => rfl, fun _ => rfl, fun _ => rfl, fun _ => rfl, fun _ => rfl,
   fun _ => rfl, fun _ => rfl, fun _ => rfl, fun _ => rfl, fun _ => rfl, fun _ => rfl,
   fun _ => rfl, fun _ => rfl, fun _ => rfl, fun _ => rfl, fun _ => rfl, fun _ => rfl,
   fun _ => rfl, fun _ => rfl, fun _ => rfl, fun _ => rfl, fun _ => rfl, fun _ => rfl,
   fun _ => rfl, fun _ => rfl, fun _ => rfl, fun _ => rfl, fun _ => rfl, fun _ => rfl,
   fun _ => rfl, fun _ => rfl, fun _ => rfl, fun _ => rfl, fun _ => rfl⟩

/-- Claim C10: for every AwsJson router, a POST request whose `x-amz-target`
header equals a registered operation name but whose URI is not `/` receives
a 404 not-found response — the RPC router requires the root path in addition
to the header lookup. -/
theorem claim_c10_awsjson_requires_root_path (routes : AwsJsonRoutes) (t s : String)
    (req : Request) (hmem : (t, s) ∈ routes) (hm : req.method = Method.POST)
    (ht : req.xAmzTarget = some t) (hu : req.uri ≠ "/") :
    outcomeStatus (awsJsonRoute routes req) = 404 := by
  simp [awsJsonRoute, hu, outcomeStatus, RoutingFailure.status]

/-- Witness for claim C10 at the `awsjson_tests::simple_routing` route table
and its wrong-URI request. -/
theorem claim_c10_witness :
    outcomeStatus
      (awsJsonRoute awsJsonDemoRoutes ⟨Method.POST, "/something", some "Service.Operation"⟩)
        = 404 :=
  claim_c10_awsjson_requires_root_path awsJsonDemoRoutes "Service.Operation" "A"
    ⟨Method.POST, "/something", some "Service.Operation"⟩ (by decide) rfl rfl (by decide)
